import Mathlib

/-!
Shallow embedding of the caching / freshness subsystem of the
material3-mcp-server repository: the persistent TTL store
(`persistent-cache.ts`), the cache version manager
(`cache-versioning.ts`) and the cache-health tool handler
(`manageCacheHealth.ts`).

Timestamps are milliseconds since the epoch (`Date.now()`), modelled as
`Nat`.  Each operation takes the clock reading `now` and the global
cache-enabled flag as explicit parameters, mirroring the calls to
`Date.now()` and `userConfig.isCacheEnabled()` in the source.  The two
upstream commit queries of `checkUpstreamChanges` are modelled by two
`Except Unit String` parameters (the sha on success, a thrown error
otherwise), and the model records the list of GitHub request paths
actually issued, so that "the upstream repositories were queried" is a
statement about the result.
-/

namespace M3Cache

/-- Millisecond timestamps, as produced by `Date.now()`. -/
abbrev Millis := Nat

/-- A stored cache entry `{ data, timestamp, ttl }` (persistent-cache.ts,
`CacheEntry<T>`); `ttl` is in seconds. -/
structure CacheEntry (α : Type) where
  data : α
  timestamp : Millis
  ttl : Nat
deriving Repr, DecidableEq

/-- One cache partition: its key/entry mapping plus the statistics
counters of the `PersistentCache` class. -/
structure PersistentCache (α : Type) where
  entries : List (String × CacheEntry α)
  hits : Nat
  misses : Nat
  writes : Nat
deriving Repr, DecidableEq

/-- Lookup of a key in the flat key/entry mapping (`cache.getKey`). -/
def findEntry {α : Type} : List (String × CacheEntry α) → String → Option (CacheEntry α)
  | [], _ => none
  | (k', e) :: t, k => if k' = k then some e else findEntry t k

/-- Store a key in the flat mapping (`cache.setKey`): overwrite in place,
or append when absent. -/
def setKey {α : Type} : List (String × CacheEntry α) → String → CacheEntry α →
    List (String × CacheEntry α)
  | [], k, e => [(k, e)]
  | (k', e') :: t, k, e => if k' = k then (k, e) :: t else (k', e') :: setKey t k e

/-- Remove a key from the flat mapping (`cache.removeKey`). -/
def removeKey {α : Type} (l : List (String × CacheEntry α)) (k : String) :
    List (String × CacheEntry α) :=
  l.filter (fun p => p.1 ≠ k)

/-- JavaScript `ttl || 3600` from `PersistentCache.set`: both `undefined`
and `0` are falsy, so both select the 3600-second default. -/
def jsOrDefaultTtl : Option Nat → Nat
  | none => 3600
  | some t => if t = 0 then 3600 else t

/-- `PersistentCache.get`: absent when the flag is off; a miss when the
key is absent; an expired entry (`now - timestamp > ttl * 1000`) is
removed and counted as a miss; otherwise a hit returning the data.
Returns the value together with the mutated partition. -/
def PersistentCache.get {α : Type} (c : PersistentCache α) (enabled : Bool) (now : Millis)
    (key : String) : Option α × PersistentCache α :=
  if enabled = false then (none, c)
  else
    match findEntry c.entries key with
    | none => (none, { c with misses := c.misses + 1 })
    | some entry =>
      if now - entry.timestamp > entry.ttl * 1000 then
        (none, { c with entries := removeKey c.entries key, misses := c.misses + 1 })
      else
        (some entry.data, { c with hits := c.hits + 1 })

/-- `PersistentCache.set`: a no-op when the flag is off; otherwise writes
`{ data, timestamp := now, ttl := ttl || 3600 }` and bumps `writes`. -/
def PersistentCache.set {α : Type} (c : PersistentCache α) (enabled : Bool) (now : Millis)
    (key : String) (value : α) (ttl : Option Nat) : PersistentCache α :=
  if enabled = false then c
  else
    { c with
      entries := setKey c.entries key { data := value, timestamp := now, ttl := jsOrDefaultTtl ttl }
      writes := c.writes + 1 }

/-- `PersistentCache.has`: `get(key) !== undefined`, including `get`'s
side effects on statistics. -/
def PersistentCache.has {α : Type} (c : PersistentCache α) (enabled : Bool) (now : Millis)
    (key : String) : Bool × PersistentCache α :=
  let r := c.get enabled now key
  (r.1.isSome, r.2)

/-- `PersistentCache.del`: unconditional removal (no enabled-flag check in
the source). -/
def PersistentCache.del {α : Type} (c : PersistentCache α) (key : String) : PersistentCache α :=
  { c with entries := removeKey c.entries key }

/-- `PersistentCache.clear`: destroy and re-create the backing resource,
resetting every statistics counter. -/
def PersistentCache.clear {α : Type} (_ : PersistentCache α) : PersistentCache α :=
  { entries := [], hits := 0, misses := 0, writes := 0 }

/-- The statistics record of `getStats()`; the `hitRate` display string
is a pure rendering of `hits`/`misses` and is not modelled. -/
structure Stats where
  hits : Nat
  misses : Nat
  writes : Nat
  size : Nat
deriving Repr, DecidableEq

/-- `PersistentCache.getStats` (counters and entry count). -/
def PersistentCache.getStats {α : Type} (c : PersistentCache α) : Stats :=
  { hits := c.hits, misses := c.misses, writes := c.writes, size := c.entries.length }

/-- The `CacheVersion` record of cache-versioning.ts. -/
structure CacheVersion where
  version : String
  lastChecked : Millis
  gitCommitSha : Option String
deriving Repr, DecidableEq

/-- A value stored in the `components` partition: the version record at
the reserved key, or opaque component data at other keys. -/
inductive CompVal where
  | ver (v : CacheVersion)
  | rawData (s : String)
deriving Repr, DecidableEq

/-- Reading `.version` off an untyped stored value, as the unchecked
TypeScript cast does: a non-record value yields `undefined` (`none`). -/
def CompVal.versionField : CompVal → Option String
  | .ver v => some v.version
  | .rawData _ => none

def CACHE_VERSION_KEY : String := "cache:version"

def CURRENT_CACHE_VERSION : String := "1.0.0"

/-- 1 hour, in milliseconds. -/
def VERSION_CHECK_INTERVAL : Nat := 3600000

def FLUTTER_COMMITS_PATH : String := "/repos/flutter/flutter/commits/master"

def WEB_COMMITS_PATH : String := "/repos/material-components/material-web/commits/main"

/-- The full mutable state of the subsystem: the global cache-enabled
flag and the three partitions. -/
structure SystemState where
  cacheEnabled : Bool
  components : PersistentCache CompVal
  icons : PersistentCache String
  docs : PersistentCache String
deriving Repr, DecidableEq

/-- The outcome of one upstream commit query: the sha, or a thrown
network error. -/
abbrev UpstreamResponse := Except Unit String

/-- `setCurrentVersion`: stamp a fresh record (current constant,
`lastChecked = now`, no fingerprint), written via `set` with no TTL. -/
def setCurrentVersion (now : Millis) (s : SystemState) : SystemState :=
  { s with
    components := s.components.set s.cacheEnabled now CACHE_VERSION_KEY
      (.ver { version := CURRENT_CACHE_VERSION, lastChecked := now, gitCommitSha := none }) none }

/-- `invalidateAllCaches`: clear all three partitions. -/
def invalidateAllCaches (s : SystemState) : SystemState :=
  { s with
    components := s.components.clear
    icons := s.icons.clear
    docs := s.docs.clear }

inductive Framework where
  | web
  | flutter
deriving Repr, DecidableEq

def Framework.label : Framework → String
  | .web => "web"
  | .flutter => "flutter"

/-- `invalidateComponent`: delete the single derived key
`{framework}:{componentName}:default` from the components partition. -/
def invalidateComponent (componentName : String) (framework : Framework)
    (s : SystemState) : SystemState :=
  { s with
    components := s.components.del (framework.label ++ ":" ++ componentName ++ ":default") }

/-- Result of `checkUpstreamChanges`: the boolean outcome, the (possibly
mutated) record object, the state, and the GitHub request paths issued. -/
structure UpstreamOutcome where
  hasChanges : Bool
  currentVersion : CacheVersion
  state : SystemState
  requests : List String
deriving Repr

/-- `checkUpstreamChanges`: query flutter/flutter then material-web; any
thrown error is caught and yields `false` with the cache untouched.  On
two shas, if a non-empty previous fingerprint exists and differs from
the combined fingerprint, report `true`; otherwise store the combined
fingerprint on the record (mutating the caller's object) and report
`false`. -/
def checkUpstreamChanges (now : Millis) (flutterResp webResp : UpstreamResponse)
    (currentVersion : CacheVersion) (s : SystemState) : UpstreamOutcome :=
  match flutterResp with
  | .error _ =>
    { hasChanges := false, currentVersion := currentVersion, state := s
      requests := [FLUTTER_COMMITS_PATH] }
  | .ok flutterLatestSha =>
    match webResp with
    | .error _ =>
      { hasChanges := false, currentVersion := currentVersion, state := s
        requests := [FLUTTER_COMMITS_PATH, WEB_COMMITS_PATH] }
    | .ok webLatestSha =>
      let combinedSha := flutterLatestSha ++ ":" ++ webLatestSha
      let prev := currentVersion.gitCommitSha.getD ""
      if prev ≠ "" ∧ prev ≠ combinedSha then
        { hasChanges := true, currentVersion := currentVersion, state := s
          requests := [FLUTTER_COMMITS_PATH, WEB_COMMITS_PATH] }
      else
        let cur := { currentVersion with gitCommitSha := some combinedSha }
        { hasChanges := false, currentVersion := cur
          state := { s with
            components := s.components.set s.cacheEnabled now CACHE_VERSION_KEY (.ver cur) none }
          requests := [FLUTTER_COMMITS_PATH, WEB_COMMITS_PATH] }

/-- Result of `checkCacheVersion`: its boolean return, the new state, the
upstream request paths issued, and whether `invalidateAllCaches` ran. -/
structure CheckResult where
  changed : Bool
  state : SystemState
  requests : List String
  cleared : Bool
deriving Repr

/-- `checkCacheVersion`: first-run path when no record is readable;
version-mismatch path (clear everything, re-stamp) when the stored
`version` differs from the constant; upstream check only when more than
the 1-hour interval elapsed since `lastChecked`; otherwise a no-op
returning `false`. -/
def checkCacheVersion (now : Millis) (flutterResp webResp : UpstreamResponse)
    (s : SystemState) : CheckResult :=
  let g := s.components.get s.cacheEnabled now CACHE_VERSION_KEY
  let s1 : SystemState := { s with components := g.2 }
  match g.1 with
  | none =>
    { changed := true, state := setCurrentVersion now s1, requests := [], cleared := false }
  | some (.rawData _) =>
    { changed := true, state := setCurrentVersion now (invalidateAllCaches s1)
      requests := [], cleared := true }
  | some (.ver storedVersion) =>
    if storedVersion.version ≠ CURRENT_CACHE_VERSION then
      { changed := true, state := setCurrentVersion now (invalidateAllCaches s1)
        requests := [], cleared := true }
    else
      let timeSinceCheck := now - storedVersion.lastChecked
      if timeSinceCheck > VERSION_CHECK_INTERVAL then
        let u := checkUpstreamChanges now flutterResp webResp storedVersion s1
        if u.hasChanges then
          { changed := true, state := setCurrentVersion now (invalidateAllCaches u.state)
            requests := u.requests, cleared := true }
        else
          let updated := { u.currentVersion with lastChecked := now }
          { changed := false
            state := { u.state with
              components := u.state.components.set u.state.cacheEnabled now CACHE_VERSION_KEY
                (.ver updated) none }
            requests := u.requests, cleared := false }
      else
        { changed := false, state := s1, requests := [], cleared := false }

/-- `formatDuration` of cache-versioning.ts. -/
def formatDuration (ms : Nat) : String :=
  let seconds := ms / 1000
  let minutes := seconds / 60
  let hours := minutes / 60
  let days := hours / 24
  if days > 0 then toString days ++ "d " ++ toString (hours % 24) ++ "h"
  else if hours > 0 then toString hours ++ "h " ++ toString (minutes % 60) ++ "m"
  else if minutes > 0 then toString minutes ++ "m " ++ toString (seconds % 60) ++ "s"
  else toString seconds ++ "s"

/-- The record returned by `getCacheHealth`. -/
structure CacheHealth where
  version : String
  lastChecked : Millis
  timeSinceCheck : String
  needsCheck : Bool
  componentsStats : Stats
  iconsStats : Stats
  docsStats : Stats
deriving Repr, DecidableEq

/-- `getCacheHealth`: reads the record through `get` (so with `get`'s
statistics and expiry side effects), then reports freshness and the
three partitions' statistics.  When the stored value is not a record the
TypeScript arithmetic on `undefined` yields `NaN`, whose comparison with
the interval is `false`; that case is modelled as a zero elapsed time,
which produces the same `needsCheck`. -/
def getCacheHealth (now : Millis) (s : SystemState) : CacheHealth × SystemState :=
  let g := s.components.get s.cacheEnabled now CACHE_VERSION_KEY
  let s1 : SystemState := { s with components := g.2 }
  let timeSinceCheck : Nat :=
    match g.1 with
    | some (.ver v) => now - v.lastChecked
    | some (.rawData _) => 0
    | none => 0
  ({ version :=
      match g.1 with
      | some (.ver v) => if v.version = "" then "unknown" else v.version
      | _ => "unknown"
     lastChecked :=
      match g.1 with
      | some (.ver v) => v.lastChecked
      | _ => 0
     timeSinceCheck := formatDuration timeSinceCheck
     needsCheck := timeSinceCheck > VERSION_CHECK_INTERVAL
     componentsStats := g.2.getStats
     iconsStats := s.icons.getStats
     docsStats := s.docs.getStats }, s1)

/-- The four actions of the manage_cache_health tool. -/
inductive CacheAction where
  | status
  | invalidateAll
  | invalidateComponentAction
  | checkUpdates
deriving Repr, DecidableEq

/-- The tool result, modelled on its error flag; the JSON text payload is
a pure rendering and is not modelled. -/
structure ToolResult where
  isError : Bool
deriving Repr, DecidableEq

/-- `manageCacheHealth`: dispatch on the action; for
`invalidate_component`, a missing (or empty, which is falsy) component
name or a missing framework throws, and the catch block returns an
`isError` result with the state untouched. -/
def manageCacheHealth (now : Millis) (flutterResp webResp : UpstreamResponse)
    (action : CacheAction) (componentName : Option String) (framework : Option Framework)
    (s : SystemState) : ToolResult × SystemState :=
  match action with
  | .status =>
    let h := getCacheHealth now s
    ({ isError := false }, h.2)
  | .invalidateAll => ({ isError := false }, invalidateAllCaches s)
  | .invalidateComponentAction =>
    match componentName, framework with
    | some cn, some fw =>
      if cn = "" then ({ isError := true }, s)
      else ({ isError := false }, invalidateComponent cn fw s)
    | _, _ => ({ isError := true }, s)
  | .checkUpdates =>
    let r := checkCacheVersion now flutterResp webResp s
    ({ isError := false }, r.state)

end M3Cache

namespace M3Cache

/-! ### Helper lemmas -/

theorem findEntry_setKey {α : Type} (l : List (String × CacheEntry α)) (k : String)
    (e : CacheEntry α) : findEntry (setKey l k e) k = some e := by
  induction l with
  | nil => simp [setKey, findEntry]
  | cons p t ih =>
    obtain ⟨k', e'⟩ := p
    by_cases h : k' = k
    · simp [setKey, h, findEntry]
    · simp [setKey, h, findEntry, ih]

/-- Characterization of a successful `get`: the flag is on, the entry is
present and unexpired, and the only state change is the hit counter. -/
theorem get_some_char {α : Type} {c : PersistentCache α} {enabled : Bool} {now : Millis}
    {key : String} {v : α} (h : (c.get enabled now key).1 = some v) :
    enabled = true ∧
    (c.get enabled now key).2 = { c with hits := c.hits + 1 } ∧
    ∃ e, findEntry c.entries key = some e ∧ e.data = v ∧ now - e.timestamp ≤ e.ttl * 1000 := by
  cases enabled with
  | false => simp [PersistentCache.get] at h
  | true =>
    refine ⟨rfl, ?_, ?_⟩
    · cases hf : findEntry c.entries key with
      | none => simp [PersistentCache.get, hf] at h
      | some e =>
        by_cases hex : now - e.timestamp > e.ttl * 1000
        · simp [PersistentCache.get, hf, hex] at h
        · simp [PersistentCache.get, hf, hex]
    · cases hf : findEntry c.entries key with
      | none => simp [PersistentCache.get, hf] at h
      | some e =>
        by_cases hex : now - e.timestamp > e.ttl * 1000
        · simp [PersistentCache.get, hf, hex] at h
        · simp [PersistentCache.get, hf, hex] at h
          exact ⟨e, rfl, h, Nat.le_of_not_lt hex⟩

/-- An expired (or absent) entry, or a disabled flag, makes `get` return
`none`. -/
theorem get_none_of_expired {α : Type} {c : PersistentCache α} {now : Millis} {key : String}
    {e : CacheEntry α} (enabled : Bool) (hf : findEntry c.entries key = some e)
    (hex : now - e.timestamp > e.ttl * 1000) :
    (c.get enabled now key).1 = none := by
  cases enabled with
  | false => simp [PersistentCache.get]
  | true => simp [PersistentCache.get, hf, hex]

end M3Cache

namespace M3Cache

/-! ### Concrete states used by witnesses and counterexamples -/

/-- An empty state with caching enabled. -/
def stateEmpty : SystemState := ⟨true, ⟨[], 0, 0, 0⟩, ⟨[], 0, 0, 0⟩, ⟨[], 0, 0, 0⟩⟩

/-- An enabled state whose components partition holds a version record
with the given `lastChecked`, write timestamp and fingerprint. -/
def stateWithRecord (lastChecked writtenAt : Millis) (sha : Option String) : SystemState :=
  { stateEmpty with
    components :=
      ⟨[(CACHE_VERSION_KEY, ⟨CompVal.ver ⟨CURRENT_CACHE_VERSION, lastChecked, sha⟩,
          writtenAt, 3600⟩)], 0, 0, 0⟩ }

end M3Cache

namespace M3Cache

/-! ### Claim theorems -/

/-- C9: with the global cache-enabled flag on, immediately after
`set(k, v, t)` the very next `get(k)` returns the stored value and
`has(k)` returns `true`, for every key, value and TTL. -/
theorem C9_set_get_roundtrip {α : Type} (now : Millis) (c : PersistentCache α) (k : String)
    (v : α) (t : Option Nat) :
    ((c.set true now k v t).get true now k).1 = some v ∧
    ((c.set true now k v t).has true now k).1 = true := by
  have hset : (c.set true now k v t).entries
      = setKey c.entries k ⟨v, now, jsOrDefaultTtl t⟩ := by
    simp [PersistentCache.set]
  have hfind : findEntry (c.set true now k v t).entries k
      = some ⟨v, now, jsOrDefaultTtl t⟩ := by
    rw [hset]; exact findEntry_setKey _ _ _
  have hget : ((c.set true now k v t).get true now k).1 = some v := by
    simp [PersistentCache.get, hfind]
  exact ⟨hget, by simp [PersistentCache.has, hget]⟩

/-- C10: a call of the cache-health tool with action `invalidate_component`
and a missing `componentName` or `framework` returns a validation-error
result (`isError`) and leaves the store state exactly unchanged. -/
theorem C10_missing_params_validation_error (now : Millis) (fr wr : UpstreamResponse)
    (componentName : Option String) (framework : Option Framework) (s : SystemState)
    (h : componentName = none ∨ framework = none) :
    manageCacheHealth now fr wr .invalidateComponentAction componentName framework s
      = ({ isError := true }, s) := by
  rcases h with h | h
  · subst h; cases framework <;> simp [manageCacheHealth]
  · subst h; cases componentName <;> simp [manageCacheHealth]

/-- Witness for C10 at a concrete call: `componentName` present,
`framework` missing. -/
theorem C10_missing_params_validation_error_witness :
    manageCacheHealth 0 (.error ()) (.error ()) .invalidateComponentAction (some "button") none
      stateEmpty = ({ isError := true }, stateEmpty) :=
  C10_missing_params_validation_error 0 (.error ()) (.error ()) (some "button") none stateEmpty
    (Or.inr rfl)

/-- C5 (code bug): `set` stores the TTL as the JavaScript expression
`ttl || 3600`, for which an explicit `0` is falsy; so `set(k, v, 0)`
stores the entry with the default 3600-second TTL and the very next
`get(k)` (here 1 ms later) returns the value instead of treating the
entry as expired. -/
theorem C5_ttl_zero_stores_default_ttl :
    ((stateEmpty.components.set true 0 "k" (CompVal.rawData "v") (some 0)).entries
        = [("k", ⟨CompVal.rawData "v", 0, 3600⟩)]) ∧
    (((stateEmpty.components.set true 0 "k" (CompVal.rawData "v") (some 0)).get true 1 "k").1
        = some (CompVal.rawData "v")) := by
  decide

/-- C6 (counterexample): `getCacheHealth` is not read-only: on an empty
enabled store it increments the components partition's miss counter. -/
theorem C6_health_mutates_stats_counterexample :
    stateEmpty.components.misses = 0 ∧ (getCacheHealth 0 stateEmpty).2.components.misses = 1 := by
  decide

end M3Cache

namespace M3Cache

/-- C6 (amended): `getCacheHealth` leaves the icons and docs partitions,
the components write counter and the flag unchanged, and its only
effects are those of its single `get` of the version record: with
caching disabled it is a strict no-op; with caching enabled it
increments exactly one of the components hit/miss counters, and the
components entry set is unchanged except that an expired version record
is removed. -/
theorem C6_health_effects_amended (now : Millis) (s : SystemState) :
    ((getCacheHealth now s).2.cacheEnabled = s.cacheEnabled) ∧
    ((getCacheHealth now s).2.icons = s.icons) ∧
    ((getCacheHealth now s).2.docs = s.docs) ∧
    ((getCacheHealth now s).2.components.writes = s.components.writes) ∧
    (s.cacheEnabled = false → (getCacheHealth now s).2 = s) ∧
    (s.cacheEnabled = true →
      (getCacheHealth now s).2.components.hits + (getCacheHealth now s).2.components.misses
        = s.components.hits + s.components.misses + 1) ∧
    ((getCacheHealth now s).2.components.entries = s.components.entries ∨
      (∃ e, findEntry s.components.entries CACHE_VERSION_KEY = some e ∧
        now - e.timestamp > e.ttl * 1000 ∧
        (getCacheHealth now s).2.components.entries
          = removeKey s.components.entries CACHE_VERSION_KEY)) := by
  obtain ⟨en, comp, ic, dc⟩ := s
  have h2 : (getCacheHealth now ⟨en, comp, ic, dc⟩).2
      = ⟨en, (comp.get en now CACHE_VERSION_KEY).2, ic, dc⟩ := rfl
  rw [h2]
  cases en with
  | false => simp [PersistentCache.get]
  | true =>
    cases hf : findEntry comp.entries CACHE_VERSION_KEY with
    | none =>
      refine ⟨rfl, rfl, rfl, ?_, ?_, ?_, ?_⟩
      · simp [PersistentCache.get, hf]
      · simp
      · intro _; simp [PersistentCache.get, hf]; omega
      · exact Or.inl (by simp [PersistentCache.get, hf])
    | some e =>
      by_cases hex : now - e.timestamp > e.ttl * 1000
      · refine ⟨rfl, rfl, rfl, ?_, ?_, ?_, ?_⟩
        · simp [PersistentCache.get, hf, hex]
        · simp
        · intro _; simp [PersistentCache.get, hf, hex]; omega
        · exact Or.inr ⟨e, rfl, hex, by simp [PersistentCache.get, hf, hex]⟩
      · refine ⟨rfl, rfl, rfl, ?_, ?_, ?_, ?_⟩
        · simp [PersistentCache.get, hf, hex]
        · simp
        · intro _; simp [PersistentCache.get, hf, hex]; omega
        · exact Or.inl (by simp [PersistentCache.get, hf, hex])

end M3Cache

namespace M3Cache

/-- Witness for C6 (amended) at a concrete state: the empty enabled
store. -/
theorem C6_health_effects_amended_witness :
    ((getCacheHealth 0 stateEmpty).2.cacheEnabled = stateEmpty.cacheEnabled) ∧
    ((getCacheHealth 0 stateEmpty).2.icons = stateEmpty.icons) ∧
    ((getCacheHealth 0 stateEmpty).2.docs = stateEmpty.docs) ∧
    ((getCacheHealth 0 stateEmpty).2.components.writes = stateEmpty.components.writes) ∧
    (stateEmpty.cacheEnabled = false → (getCacheHealth 0 stateEmpty).2 = stateEmpty) ∧
    (stateEmpty.cacheEnabled = true →
      (getCacheHealth 0 stateEmpty).2.components.hits
          + (getCacheHealth 0 stateEmpty).2.components.misses
        = stateEmpty.components.hits + stateEmpty.components.misses + 1) ∧
    ((getCacheHealth 0 stateEmpty).2.components.entries = stateEmpty.components.entries ∨
      (∃ e, findEntry stateEmpty.components.entries CACHE_VERSION_KEY = some e ∧
        0 - e.timestamp > e.ttl * 1000 ∧
        (getCacheHealth 0 stateEmpty).2.components.entries
          = removeKey stateEmpty.components.entries CACHE_VERSION_KEY)) :=
  C6_health_effects_amended 0 stateEmpty

/-- C3 (counterexample): in the state the manager itself writes at time 0
(record stamped with `lastChecked = 0`, written at time 0 with the
default 3600-second TTL), a `getCacheHealth` far more than one hour
later finds the record expired, so `needsCheck` is `false` even though
far more than one hour has elapsed since `lastChecked`. -/
theorem C3_expired_record_counterexample :
    findEntry (stateWithRecord 0 0 none).components.entries CACHE_VERSION_KEY
      = some ⟨CompVal.ver ⟨CURRENT_CACHE_VERSION, 0, none⟩, 0, 3600⟩ ∧
    (10000000 : Nat) - 0 > VERSION_CHECK_INTERVAL ∧
    (getCacheHealth 10000000 (stateWithRecord 0 0 none)).1.needsCheck = false := by
  decide

/-- C3 (amended): `needsCheck` equals "more than one hour since
`lastChecked`" exactly when the stored record is still readable (present
and unexpired); when `get` finds no readable record, `needsCheck` is
`false` regardless of how long ago the last check was. -/
theorem C3_needs_check_amended (now : Millis) (s : SystemState) :
    (∀ cv c1, s.components.get s.cacheEnabled now CACHE_VERSION_KEY = (some (.ver cv), c1) →
      ((getCacheHealth now s).1.needsCheck = true ↔
        now - cv.lastChecked > VERSION_CHECK_INTERVAL)) ∧
    ((s.components.get s.cacheEnabled now CACHE_VERSION_KEY).1 = none →
      (getCacheHealth now s).1.needsCheck = false) := by
  constructor
  · intro cv c1 hget
    simp [getCacheHealth, hget]
  · intro hget
    simp [getCacheHealth, hget, VERSION_CHECK_INTERVAL]

/-- Witness for C3 (amended) at a concrete state: a readable record with
an old `lastChecked` makes `needsCheck` true. -/
theorem C3_needs_check_amended_witness :
    ((getCacheHealth 10000000 (stateWithRecord 0 10000000 none)).1.needsCheck = true ↔
      (10000000 : Nat) - 0 > VERSION_CHECK_INTERVAL) ∧
    ((10000000 : Nat) - 0 > VERSION_CHECK_INTERVAL) :=
  ⟨(C3_needs_check_amended 10000000 (stateWithRecord 0 10000000 none)).1
      ⟨CURRENT_CACHE_VERSION, 0, none⟩
      ⟨(stateWithRecord 0 10000000 none).components.entries, 1, 0, 0⟩ (by decide),
    by decide⟩

end M3Cache

namespace M3Cache

/-- C7: with caching operational (global flag on), when no version record
is readable, `checkCacheVersion` returns `true`, clears nothing, issues
no upstream request, and stamps a fresh record with the compiled-in
version, `lastChecked = now` and no fingerprint. -/
theorem C7_first_run_stamps_record (now : Millis) (fr wr : UpstreamResponse) (s : SystemState)
    (hen : s.cacheEnabled = true)
    (hget : (s.components.get s.cacheEnabled now CACHE_VERSION_KEY).1 = none) :
    (checkCacheVersion now fr wr s).changed = true ∧
    (checkCacheVersion now fr wr s).cleared = false ∧
    (checkCacheVersion now fr wr s).requests = [] ∧
    findEntry (checkCacheVersion now fr wr s).state.components.entries CACHE_VERSION_KEY
      = some ⟨CompVal.ver ⟨CURRENT_CACHE_VERSION, now, none⟩, now, 3600⟩ ∧
    (checkCacheVersion now fr wr s).state.icons = s.icons ∧
    (checkCacheVersion now fr wr s).state.docs = s.docs := by
  rw [hen] at hget
  refine ⟨?_, ?_, ?_, ?_, ?_, ?_⟩ <;>
    simp [checkCacheVersion, hget, setCurrentVersion, PersistentCache.set, hen,
      jsOrDefaultTtl, findEntry_setKey]

/-- Witness for C7 at the empty enabled state. -/
theorem C7_first_run_stamps_record_witness :
    (checkCacheVersion 5 (.error ()) (.error ()) stateEmpty).changed = true ∧
    (checkCacheVersion 5 (.error ()) (.error ()) stateEmpty).cleared = false ∧
    (checkCacheVersion 5 (.error ()) (.error ()) stateEmpty).requests = [] ∧
    findEntry (checkCacheVersion 5 (.error ()) (.error ()) stateEmpty).state.components.entries
      CACHE_VERSION_KEY = some ⟨CompVal.ver ⟨CURRENT_CACHE_VERSION, 5, none⟩, 5, 3600⟩ ∧
    (checkCacheVersion 5 (.error ()) (.error ()) stateEmpty).state.icons = stateEmpty.icons ∧
    (checkCacheVersion 5 (.error ()) (.error ()) stateEmpty).state.docs = stateEmpty.docs :=
  C7_first_run_stamps_record 5 (.error ()) (.error ()) stateEmpty rfl (by decide)

end M3Cache

namespace M3Cache

/-- C4 (counterexample): with a fresh record (`lastChecked` one minute
ago) and the upstream check throwing, `checkCacheVersion` returns
`false` as claimed, but `lastChecked` is NOT updated to the current
time: the record is left exactly as it was (the interval has not
elapsed, so the upstream path that would advance it is never entered). -/
theorem C4_no_lastchecked_update_counterexample :
    (checkCacheVersion 1000000 (.error ()) (.error ())
        (stateWithRecord 940000 940000 (some "a:b"))).changed = false ∧
    findEntry (checkCacheVersion 1000000 (.error ()) (.error ())
          (stateWithRecord 940000 940000 (some "a:b"))).state.components.entries
        CACHE_VERSION_KEY
      = some ⟨CompVal.ver ⟨CURRENT_CACHE_VERSION, 940000, some "a:b"⟩, 940000, 3600⟩ ∧
    (940000 : Nat) ≠ 1000000 := by
  decide

/-- C4 (amended): for every state with a readable, matching-version
record whose `lastChecked` is within the 1-hour interval (e.g. one
minute old), `checkCacheVersion` returns `false`, performs no upstream
query, clears no partition, and leaves every partition's entry set —
the version record and its `lastChecked` included — unchanged, for any
upstream outcome (a network error included). -/
theorem C4_fresh_record_untouched_amended (now : Millis) (fr wr : UpstreamResponse)
    (s : SystemState) (cv : CacheVersion) (c1 : PersistentCache CompVal)
    (hget : s.components.get s.cacheEnabled now CACHE_VERSION_KEY = (some (.ver cv), c1))
    (hver : cv.version = CURRENT_CACHE_VERSION)
    (hfresh : now - cv.lastChecked ≤ VERSION_CHECK_INTERVAL) :
    (checkCacheVersion now fr wr s).changed = false ∧
    (checkCacheVersion now fr wr s).cleared = false ∧
    (checkCacheVersion now fr wr s).requests = [] ∧
    (checkCacheVersion now fr wr s).state.components.entries = s.components.entries ∧
    (checkCacheVersion now fr wr s).state.icons = s.icons ∧
    (checkCacheVersion now fr wr s).state.docs = s.docs := by
  have hfst : (s.components.get s.cacheEnabled now CACHE_VERSION_KEY).1 = some (.ver cv) := by
    rw [hget]
  obtain ⟨hen, hsnd, -⟩ := get_some_char hfst
  have hc1 : c1 = { s.components with hits := s.components.hits + 1 } := by
    rw [hget] at hsnd; exact hsnd
  have hnot : ¬ (VERSION_CHECK_INTERVAL < now - cv.lastChecked) := Nat.not_lt.mpr hfresh
  refine ⟨?_, ?_, ?_, ?_, ?_, ?_⟩ <;>
    simp [checkCacheVersion, hget, hver, hnot, hc1]

/-- Witness for C4 (amended) at the counterexample's concrete state. -/
theorem C4_fresh_record_untouched_amended_witness :
    (checkCacheVersion 1000000 (.error ()) (.error ())
        (stateWithRecord 940000 940000 (some "a:b"))).changed = false ∧
    (checkCacheVersion 1000000 (.error ()) (.error ())
        (stateWithRecord 940000 940000 (some "a:b"))).cleared = false ∧
    (checkCacheVersion 1000000 (.error ()) (.error ())
        (stateWithRecord 940000 940000 (some "a:b"))).requests = [] ∧
    (checkCacheVersion 1000000 (.error ()) (.error ())
          (stateWithRecord 940000 940000 (some "a:b"))).state.components.entries
      = (stateWithRecord 940000 940000 (some "a:b")).components.entries ∧
    (checkCacheVersion 1000000 (.error ()) (.error ())
          (stateWithRecord 940000 940000 (some "a:b"))).state.icons
      = (stateWithRecord 940000 940000 (some "a:b")).icons ∧
    (checkCacheVersion 1000000 (.error ()) (.error ())
          (stateWithRecord 940000 940000 (some "a:b"))).state.docs
      = (stateWithRecord 940000 940000 (some "a:b")).docs :=
  C4_fresh_record_untouched_amended 1000000 (.error ()) (.error ())
    (stateWithRecord 940000 940000 (some "a:b"))
    ⟨CURRENT_CACHE_VERSION, 940000, some "a:b"⟩
    ⟨(stateWithRecord 940000 940000 (some "a:b")).components.entries, 1, 0, 0⟩
    (by decide) rfl (by decide)

end M3Cache

namespace M3Cache

/-- C1: for every state whose components partition holds a readable
version record with the compiled-in version and a `lastChecked` more
than one hour in the past, `checkCacheVersion` queries both upstream
repositories, and when the stored fingerprint is non-empty and differs
from the newly combined one it clears all three partitions, stamps a
fresh record and returns `true`. -/
theorem C1_check_due_upstream_invalidation (now : Millis) (s : SystemState)
    (cv : CacheVersion) (c1 : PersistentCache CompVal) (f w g : String)
    (hget : s.components.get s.cacheEnabled now CACHE_VERSION_KEY = (some (.ver cv), c1))
    (hver : cv.version = CURRENT_CACHE_VERSION)
    (htime : now - cv.lastChecked > VERSION_CHECK_INTERVAL)
    (hsha : cv.gitCommitSha = some g) (hne : g ≠ "") (hdiff : g ≠ f ++ ":" ++ w) :
    checkCacheVersion now (.ok f) (.ok w) s =
      { changed := true
        state :=
          { cacheEnabled := true
            components := ⟨[(CACHE_VERSION_KEY,
                ⟨CompVal.ver ⟨CURRENT_CACHE_VERSION, now, none⟩, now, 3600⟩)], 0, 0, 1⟩
            icons := ⟨[], 0, 0, 0⟩
            docs := ⟨[], 0, 0, 0⟩ }
        requests := [FLUTTER_COMMITS_PATH, WEB_COMMITS_PATH]
        cleared := true } := by
  have hfst : (s.components.get s.cacheEnabled now CACHE_VERSION_KEY).1 = some (.ver cv) := by
    rw [hget]
  obtain ⟨hen, -, -⟩ := get_some_char hfst
  rw [hen] at hget
  simp [checkCacheVersion, hget, hver, htime, checkUpstreamChanges, hsha, hne, hdiff,
    invalidateAllCaches, PersistentCache.clear, setCurrentVersion, PersistentCache.set,
    hen, jsOrDefaultTtl, setKey]

/-- Witness for C1: a state holding a readable record (written 0 ms ago)
whose `lastChecked` is more than an hour old and whose fingerprint
differs from the upstream shas. -/
theorem C1_check_due_upstream_invalidation_witness :
    checkCacheVersion 4000000 (.ok "aaa") (.ok "bbb") (stateWithRecord 0 4000000 (some "x:y")) =
      { changed := true
        state :=
          { cacheEnabled := true
            components := ⟨[(CACHE_VERSION_KEY,
                ⟨CompVal.ver ⟨CURRENT_CACHE_VERSION, 4000000, none⟩, 4000000, 3600⟩)], 0, 0, 1⟩
            icons := ⟨[], 0, 0, 0⟩
            docs := ⟨[], 0, 0, 0⟩ }
        requests := [FLUTTER_COMMITS_PATH, WEB_COMMITS_PATH]
        cleared := true } :=
  C1_check_due_upstream_invalidation 4000000 (stateWithRecord 0 4000000 (some "x:y"))
    ⟨CURRENT_CACHE_VERSION, 0, some "x:y"⟩
    ⟨(stateWithRecord 0 4000000 (some "x:y")).components.entries, 1, 0, 0⟩
    "aaa" "bbb" "x:y" (by decide) rfl (by decide) rfl (by decide) (by decide)

end M3Cache

namespace M3Cache

/-! ### Path characterizations of checkCacheVersion and the record invariant -/

/-- First-run path: no readable record. -/
theorem check_none_eq (now : Millis) (fr wr : UpstreamResponse) (s : SystemState)
    (h : (s.components.get s.cacheEnabled now CACHE_VERSION_KEY).1 = none) :
    checkCacheVersion now fr wr s =
      { changed := true
        state := setCurrentVersion now
          { s with components := (s.components.get s.cacheEnabled now CACHE_VERSION_KEY).2 }
        requests := [], cleared := false } := by
  simp [checkCacheVersion, h]

/-- Fresh path: readable record, version matches, interval not elapsed. -/
theorem check_ver_fresh_eq (now : Millis) (fr wr : UpstreamResponse) (s : SystemState)
    (cv : CacheVersion)
    (h : (s.components.get s.cacheEnabled now CACHE_VERSION_KEY).1 = some (.ver cv))
    (hver : cv.version = CURRENT_CACHE_VERSION)
    (hfresh : ¬ (VERSION_CHECK_INTERVAL < now - cv.lastChecked)) :
    checkCacheVersion now fr wr s =
      { changed := false
        state := { s with components := (s.components.get s.cacheEnabled now CACHE_VERSION_KEY).2 }
        requests := [], cleared := false } := by
  simp [checkCacheVersion, h, hver, hfresh]

/-- Version-mismatch path: readable record whose version differs from
the compiled-in constant. -/
theorem check_ver_mismatch_eq (now : Millis) (fr wr : UpstreamResponse) (s : SystemState)
    (cv : CacheVersion)
    (h : (s.components.get s.cacheEnabled now CACHE_VERSION_KEY).1 = some (.ver cv))
    (hver : cv.version ≠ CURRENT_CACHE_VERSION) :
    checkCacheVersion now fr wr s =
      { changed := true
        state := setCurrentVersion now (invalidateAllCaches
          { s with components := (s.components.get s.cacheEnabled now CACHE_VERSION_KEY).2 })
        requests := [], cleared := true } := by
  simp [checkCacheVersion, h, hver]

/-- Invariant satisfied by every version record the manager itself writes
under a single clock reading per call: the stored record (when present)
has `timestamp = lastChecked` and the default 3600-second TTL. -/
def recordInvariant (s : SystemState) : Prop :=
  ∀ e, findEntry s.components.entries CACHE_VERSION_KEY = some e →
    ∃ cv, e.data = CompVal.ver cv ∧ e.timestamp = cv.lastChecked ∧ e.ttl = 3600

/-- On an invariant state, `get` of the version record either fails or
returns a record whose `lastChecked` is within the interval: the default
TTL (3600 s) equals the check interval (3600000 ms), so any older record
has already expired. -/
theorem invariant_get_cases (now : Millis) (s : SystemState) (hinv : recordInvariant s) :
    (s.components.get s.cacheEnabled now CACHE_VERSION_KEY).1 = none ∨
    ∃ cv, (s.components.get s.cacheEnabled now CACHE_VERSION_KEY).1 = some (.ver cv) ∧
      now - cv.lastChecked ≤ VERSION_CHECK_INTERVAL := by
  cases hg : (s.components.get s.cacheEnabled now CACHE_VERSION_KEY).1 with
  | none => exact Or.inl rfl
  | some v =>
    obtain ⟨hen, -, e, hf, hd, hfr⟩ := get_some_char hg
    obtain ⟨cv, hcv, hts, httl⟩ := hinv e hf
    refine Or.inr ⟨cv, by rw [← hd, hcv], ?_⟩
    calc now - cv.lastChecked = now - e.timestamp := by rw [hts]
      _ ≤ e.ttl * 1000 := hfr
      _ = VERSION_CHECK_INTERVAL := by rw [httl]; rfl

end M3Cache

namespace M3Cache

/-- C2: all version-record writes pass no TTL, so the record's TTL is the
3600-second default — exactly the 1-hour check interval.  Hence, on any
state whose record was written with a single clock reading
(`timestamp = lastChecked`): (a) `checkCacheVersion` never issues an
upstream request; (b) whenever `now - lastChecked` exceeds the interval
the record has already expired, `get` returns absent, and the call takes
the first-run path — returning `true` and stamping a fresh record
without clearing any partition. -/
theorem C2_default_ttl_preempts_upstream_check (now : Millis) (s : SystemState)
    (hinv : recordInvariant s) :
    jsOrDefaultTtl none = 3600 ∧
    (s.cacheEnabled = true →
      findEntry (setCurrentVersion now s).components.entries CACHE_VERSION_KEY
        = some ⟨CompVal.ver ⟨CURRENT_CACHE_VERSION, now, none⟩, now, 3600⟩) ∧
    (∀ fr wr, (checkCacheVersion now fr wr s).requests = []) ∧
    (∀ e cv, findEntry s.components.entries CACHE_VERSION_KEY = some e →
      e.data = CompVal.ver cv → now - cv.lastChecked > VERSION_CHECK_INTERVAL →
      (s.components.get s.cacheEnabled now CACHE_VERSION_KEY).1 = none ∧
      ∀ fr wr,
        (checkCacheVersion now fr wr s).changed = true ∧
        (checkCacheVersion now fr wr s).cleared = false ∧
        (checkCacheVersion now fr wr s).state.icons = s.icons ∧
        (checkCacheVersion now fr wr s).state.docs = s.docs ∧
        (s.cacheEnabled = true →
          findEntry (checkCacheVersion now fr wr s).state.components.entries CACHE_VERSION_KEY
            = some ⟨CompVal.ver ⟨CURRENT_CACHE_VERSION, now, none⟩, now, 3600⟩)) := by
  refine ⟨rfl, ?_, ?_, ?_⟩
  · intro hen
    simp [setCurrentVersion, PersistentCache.set, hen, jsOrDefaultTtl, findEntry_setKey]
  · intro fr wr
    rcases invariant_get_cases now s hinv with hnone | ⟨cv, hsome, hfresh⟩
    · rw [check_none_eq now fr wr s hnone]
    · by_cases hver : cv.version = CURRENT_CACHE_VERSION
      · rw [check_ver_fresh_eq now fr wr s cv hsome hver (Nat.not_lt.mpr hfresh)]
      · rw [check_ver_mismatch_eq now fr wr s cv hsome hver]
  · intro e cv hf hd htime
    obtain ⟨cv', hd', hts', httl'⟩ := hinv e hf
    have hcc : cv' = cv := by rw [hd] at hd'; exact (CompVal.ver.injEq cv' cv).mp hd'.symm
    subst hcc
    have hexp : now - e.timestamp > e.ttl * 1000 := by
      rw [hts', httl']
      calc (3600 : Nat) * 1000 = VERSION_CHECK_INTERVAL := rfl
        _ < now - cv'.lastChecked := htime
    have hnone : (s.components.get s.cacheEnabled now CACHE_VERSION_KEY).1 = none :=
      get_none_of_expired s.cacheEnabled hf hexp
    refine ⟨hnone, ?_⟩
    intro fr wr
    rw [check_none_eq now fr wr s hnone]
    refine ⟨rfl, rfl, rfl, rfl, ?_⟩
    intro hen
    simp [setCurrentVersion, PersistentCache.set, hen, jsOrDefaultTtl, findEntry_setKey]

end M3Cache

namespace M3Cache

/-- States built by `stateWithRecord` with equal `lastChecked` and write
timestamp satisfy the record invariant. -/
theorem recordInvariant_stateWithRecord (lastChecked : Millis) (sha : Option String) :
    recordInvariant (stateWithRecord lastChecked lastChecked sha) := by
  intro e h
  simp [stateWithRecord, stateEmpty, findEntry] at h
  exact ⟨⟨CURRENT_CACHE_VERSION, lastChecked, sha⟩, by rw [← h], by rw [← h], by rw [← h]⟩

/-- Witness for C2 at a concrete state: a record stamped at time 0 and
checked at time 4000000 (more than an hour later). -/
theorem C2_default_ttl_preempts_upstream_check_witness :
    jsOrDefaultTtl none = 3600 ∧
    ((stateWithRecord 0 0 (some "x:y")).cacheEnabled = true →
      findEntry (setCurrentVersion 4000000 (stateWithRecord 0 0 (some "x:y"))).components.entries
          CACHE_VERSION_KEY
        = some ⟨CompVal.ver ⟨CURRENT_CACHE_VERSION, 4000000, none⟩, 4000000, 3600⟩) ∧
    (∀ fr wr,
      (checkCacheVersion 4000000 fr wr (stateWithRecord 0 0 (some "x:y"))).requests = []) ∧
    (∀ e cv,
      findEntry (stateWithRecord 0 0 (some "x:y")).components.entries CACHE_VERSION_KEY
          = some e →
      e.data = CompVal.ver cv → 4000000 - cv.lastChecked > VERSION_CHECK_INTERVAL →
      ((stateWithRecord 0 0 (some "x:y")).components.get
          (stateWithRecord 0 0 (some "x:y")).cacheEnabled 4000000 CACHE_VERSION_KEY).1 = none ∧
      ∀ fr wr,
        (checkCacheVersion 4000000 fr wr (stateWithRecord 0 0 (some "x:y"))).changed = true ∧
        (checkCacheVersion 4000000 fr wr (stateWithRecord 0 0 (some "x:y"))).cleared = false ∧
        (checkCacheVersion 4000000 fr wr (stateWithRecord 0 0 (some "x:y"))).state.icons
          = (stateWithRecord 0 0 (some "x:y")).icons ∧
        (checkCacheVersion 4000000 fr wr (stateWithRecord 0 0 (some "x:y"))).state.docs
          = (stateWithRecord 0 0 (some "x:y")).docs ∧
        ((stateWithRecord 0 0 (some "x:y")).cacheEnabled = true →
          findEntry (checkCacheVersion 4000000 fr wr
              (stateWithRecord 0 0 (some "x:y"))).state.components.entries CACHE_VERSION_KEY
            = some ⟨CompVal.ver ⟨CURRENT_CACHE_VERSION, 4000000, none⟩, 4000000, 3600⟩)) :=
  C2_default_ttl_preempts_upstream_check 4000000 (stateWithRecord 0 0 (some "x:y"))
    (recordInvariant_stateWithRecord 0 (some "x:y"))

end M3Cache

namespace M3Cache

/-- Disabled flag: `get` is a pure no-op returning `none`. -/
theorem get_disabled {α : Type} (c : PersistentCache α) (now : Millis) (key : String) :
    c.get false now key = (none, c) := by
  simp [PersistentCache.get]

/-- `checkCacheVersion` preserves the enabled flag, preserves the record
invariant, and — when caching is enabled — leaves behind only records
carrying the compiled-in version. -/
theorem check_post_invariant (now : Millis) (fr wr : UpstreamResponse) (s : SystemState)
    (hinv : recordInvariant s) :
    (checkCacheVersion now fr wr s).state.cacheEnabled = s.cacheEnabled ∧
    recordInvariant (checkCacheVersion now fr wr s).state ∧
    (s.cacheEnabled = true →
      ∀ e, findEntry (checkCacheVersion now fr wr s).state.components.entries CACHE_VERSION_KEY
          = some e →
        ∃ cv, e.data = CompVal.ver cv ∧ e.timestamp = cv.lastChecked ∧ e.ttl = 3600 ∧
          cv.version = CURRENT_CACHE_VERSION) := by
  rcases invariant_get_cases now s hinv with hnone | ⟨cv, hsome, hfresh⟩
  · rw [check_none_eq now fr wr s hnone]
    cases hen : s.cacheEnabled with
    | false =>
      rw [hen] at hnone
      refine ⟨by simp [setCurrentVersion, PersistentCache.set], ?_, ?_⟩
      · intro e h
        apply hinv e
        rw [← h]
        simp [setCurrentVersion, PersistentCache.set, get_disabled]
      · intro h; exact absurd h (by simp)
    | true =>
      refine ⟨by simp [setCurrentVersion, PersistentCache.set], ?_, ?_⟩
      · intro e h
        simp [setCurrentVersion, PersistentCache.set, jsOrDefaultTtl, findEntry_setKey] at h
        exact ⟨⟨CURRENT_CACHE_VERSION, now, none⟩, by rw [← h], by rw [← h], by rw [← h]⟩
      · intro _ e h
        simp [setCurrentVersion, PersistentCache.set, jsOrDefaultTtl, findEntry_setKey] at h
        exact ⟨⟨CURRENT_CACHE_VERSION, now, none⟩, by rw [← h], by rw [← h], by rw [← h], rfl⟩
  · obtain ⟨hen, hsnd, e0, hf0, hd0, -⟩ := get_some_char hsome
    by_cases hver : cv.version = CURRENT_CACHE_VERSION
    · rw [check_ver_fresh_eq now fr wr s cv hsome hver (Nat.not_lt.mpr hfresh)]
      refine ⟨rfl, ?_, ?_⟩
      · intro e h
        apply hinv e
        rw [← h, hsnd]
      · intro _ e h
        rw [hsnd] at h
        obtain ⟨cv', hd', hts', httl'⟩ := hinv e h
        have hee : e = e0 := by
          rw [h] at hf0; exact (Option.some.injEq _ _).mp hf0
        subst hee
        have : cv' = cv := by
          rw [hd0] at hd'; exact (CompVal.ver.injEq cv' cv).mp hd'.symm
        subst this
        exact ⟨cv', hd', hts', httl', hver⟩
    · rw [check_ver_mismatch_eq now fr wr s cv hsome hver]
      refine ⟨by simp [setCurrentVersion, PersistentCache.set, invalidateAllCaches], ?_, ?_⟩
      · intro e h
        rw [setCurrentVersion] at h
        simp [invalidateAllCaches, PersistentCache.clear, PersistentCache.set, hen,
          jsOrDefaultTtl, findEntry_setKey] at h
        exact ⟨⟨CURRENT_CACHE_VERSION, now, none⟩, by rw [← h], by rw [← h], by rw [← h]⟩
      · intro _ e h
        rw [setCurrentVersion] at h
        simp [invalidateAllCaches, PersistentCache.clear, PersistentCache.set, hen,
          jsOrDefaultTtl, findEntry_setKey] at h
        exact ⟨⟨CURRENT_CACHE_VERSION, now, none⟩, by rw [← h], by rw [← h], by rw [← h], rfl⟩

end M3Cache

namespace M3Cache

/-- On an invariant state whose readable record (if any) carries the
compiled-in version, `checkCacheVersion` never runs
`invalidateAllCaches`: the upstream branch is starved by the record's
TTL and the version-mismatch branch is excluded. -/
theorem check_no_clear (now : Millis) (fr wr : UpstreamResponse) (s : SystemState)
    (hinv : recordInvariant s)
    (hgood : s.cacheEnabled = true →
      ∀ e, findEntry s.components.entries CACHE_VERSION_KEY = some e →
        ∃ cv, e.data = CompVal.ver cv ∧ e.timestamp = cv.lastChecked ∧ e.ttl = 3600 ∧
          cv.version = CURRENT_CACHE_VERSION) :
    (checkCacheVersion now fr wr s).cleared = false := by
  rcases invariant_get_cases now s hinv with hnone | ⟨cv, hsome, hfresh⟩
  · rw [check_none_eq now fr wr s hnone]
  · obtain ⟨hen, -, e, hf, hd, -⟩ := get_some_char hsome
    obtain ⟨cv', hd', -, -, hver'⟩ := hgood hen e hf
    have hcc : cv' = cv := by
      rw [hd] at hd'; exact (CompVal.ver.injEq cv' cv).mp hd'.symm
    subst hcc
    rw [check_ver_fresh_eq now fr wr s cv' hsome hver' (Nat.not_lt.mpr hfresh)]

/-- C8: starting from any state whose version record was written by the
manager itself (single clock reading, default TTL), two consecutive
`checkCacheVersion` calls — the second within the 1-hour window of the
first — clear the partitions at most once in total, and the second call
performs no invalidation at all. -/
theorem C8_second_check_never_invalidates (now now2 : Millis) (f w f2 w2 : UpstreamResponse)
    (s : SystemState) (hinv : recordInvariant s)
    (h1 : now ≤ now2) (h2 : now2 ≤ now + VERSION_CHECK_INTERVAL) :
    (checkCacheVersion now2 f2 w2 (checkCacheVersion now f w s).state).cleared = false ∧
    ((if (checkCacheVersion now f w s).cleared = true then 1 else 0) +
      (if (checkCacheVersion now2 f2 w2 (checkCacheVersion now f w s).state).cleared = true
        then 1 else 0) ≤ 1) := by
  obtain ⟨hpe, hpinv, hpgood⟩ := check_post_invariant now f w s hinv
  have hgood2 : (checkCacheVersion now f w s).state.cacheEnabled = true →
      ∀ e, findEntry (checkCacheVersion now f w s).state.components.entries CACHE_VERSION_KEY
          = some e →
        ∃ cv, e.data = CompVal.ver cv ∧ e.timestamp = cv.lastChecked ∧ e.ttl = 3600 ∧
          cv.version = CURRENT_CACHE_VERSION := by
    intro hen'
    rw [hpe] at hen'
    exact hpgood hen'
  have h2nd := check_no_clear now2 f2 w2 (checkCacheVersion now f w s).state hpinv hgood2
  refine ⟨h2nd, ?_⟩
  rw [h2nd]
  split <;> simp

/-- Witness for C8: two immediate checks on a freshly stamped record. -/
theorem C8_second_check_never_invalidates_witness :
    (checkCacheVersion 1 (.ok "c") (.ok "d")
        (checkCacheVersion 0 (.ok "a") (.ok "b")
          (stateWithRecord 0 0 (some "x:y"))).state).cleared = false ∧
    ((if (checkCacheVersion 0 (.ok "a") (.ok "b")
          (stateWithRecord 0 0 (some "x:y"))).cleared = true then 1 else 0) +
      (if (checkCacheVersion 1 (.ok "c") (.ok "d")
          (checkCacheVersion 0 (.ok "a") (.ok "b")
            (stateWithRecord 0 0 (some "x:y"))).state).cleared = true then 1 else 0) ≤ 1) :=
  C8_second_check_never_invalidates 0 1 (.ok "a") (.ok "b") (.ok "c") (.ok "d")
    (stateWithRecord 0 0 (some "x:y")) (recordInvariant_stateWithRecord 0 (some "x:y"))
    (by decide) (by decide)

end M3Cache
